import Mathlib

/-!
Shallow embedding of the fingerprint module of the datamol repository
(src/datamol/fp.py) and proofs about its behaviour.

The module is a dispatch and normalization layer over external RDKit
fingerprint primitives.  External callables and library objects are
represented opaquely (by descriptive strings or by abstract collaborator
functions); every piece of control flow, every table and every message that
the module itself contains is translated faithfully.  numpy array semantics
relevant to the translated lines (dtype of empty arrays, index-dtype checks
of fancy indexing and of ufunc.at, casting rules of in-place addition,
integer remainder by zero) are modelled explicitly and documented next to
the branches they produce.
-/

namespace Datamol

/-- A Python value appearing in the default-argument tables of fp.py.
External library objects and non-integral constants are represented
opaquely by a descriptive string in the `ext` constructor. -/
inductive PyVal : Type
  | int (i : Int)
  | bool (b : Bool)
  | pynone
  | str (s : String)
  | list (xs : List PyVal)
  | ext (desc : String)

/-- Table `_FP_GENERATORS` (fp.py lines 24-35): tag paired with the name of the
external generator factory it maps to. -/
def FP_GENERATORS : List (String × String) :=
  [("ecfp", "rdFingerprintGenerator.GetMorganGenerator"),
   ("fcfp", "rdFingerprintGenerator.GetMorganGenerator"),
   ("topological", "rdFingerprintGenerator.GetTopologicalTorsionGenerator"),
   ("atompair", "rdFingerprintGenerator.GetAtomPairGenerator"),
   ("rdkit", "rdFingerprintGenerator.GetRDKitFPGenerator"),
   ("ecfp-count", "rdFingerprintGenerator.GetMorganGenerator"),
   ("fcfp-count", "rdFingerprintGenerator.GetMorganGenerator"),
   ("topological-count", "rdFingerprintGenerator.GetTopologicalTorsionGenerator"),
   ("atompair-count", "rdFingerprintGenerator.GetAtomPairGenerator"),
   ("rdkit-count", "rdFingerprintGenerator.GetRDKitFPGenerator")]

/-- Table `_FP_FUNCS` (fp.py lines 37-47): tag paired with the name of the external
callable.  The dict literal lists seven direct entries and then splices in
`_FP_GENERATORS`; all keys are distinct, so in insertion order the keys are
the seven direct ones followed by the generator tags. -/
def FP_FUNCS : List (String × String) :=
  [("maccs", "rdMolDescriptors.GetMACCSKeysFingerprint"),
   ("pattern", "rdmolops.PatternFingerprint"),
   ("layered", "rdmolops.LayeredFingerprint"),
   ("erg", "rdReducedGraphs.GetErGFingerprint"),
   ("estate", "lambda x: EStateFingerprinter.FingerprintMol(x)[0]"),
   ("avalon-count", "pyAvalonTools.GetAvalonCountFP"),
   ("avalon", "pyAvalonTools.GetAvalonFP")] ++ FP_GENERATORS

/-- The key set of the algorithm registry `_FP_FUNCS`. -/
def FP_FUNCS_keys : List String := FP_FUNCS.map Prod.fst

/-- Default arguments of the tag "maccs" (fp.py line 50). -/
def maccsDefaults : List (String × PyVal) := []

/-- Default arguments of the tag "avalon" (fp.py lines 51-56). -/
def avalonDefaults : List (String × PyVal) :=
  [("nBits", .int 512),
   ("isQuery", .bool false),
   ("resetVect", .bool false),
   ("bitFlags", .ext "pyAvalonTools.avalonSimilarityBits")]

/-- Default arguments of the tag "ecfp" (fp.py lines 57-66). -/
def ecfpDefaults : List (String × PyVal) :=
  [("radius", .int 3),
   ("fpSize", .int 2048),
   ("includeChirality", .bool false),
   ("useBondTypes", .bool true),
   ("countSimulation", .bool false),
   ("countBounds", .pynone),
   ("atomInvariantsGenerator", .pynone),
   ("bondInvariantsGenerator", .pynone)]

/-- Default arguments of the tag "fcfp" (fp.py lines 67-76). -/
def fcfpDefaults : List (String × PyVal) :=
  [("radius", .int 2),
   ("fpSize", .int 2048),
   ("includeChirality", .bool false),
   ("useBondTypes", .bool true),
   ("countSimulation", .bool false),
   ("countBounds", .pynone),
   ("atomInvariantsGenerator", .ext "rdFingerprintGenerator.GetMorganFeatureAtomInvGen()"),
   ("bondInvariantsGenerator", .pynone)]

/-- Default arguments of the tag "topological" (fp.py lines 77-84). -/
def topologicalDefaults : List (String × PyVal) :=
  [("includeChirality", .bool false),
   ("torsionAtomCount", .int 4),
   ("countSimulation", .bool true),
   ("countBounds", .pynone),
   ("fpSize", .int 2048),
   ("atomInvariantsGenerator", .pynone)]

/-- Default arguments of the tag "atompair" (fp.py lines 85-94). -/
def atompairDefaults : List (String × PyVal) :=
  [("minDistance", .int 1),
   ("maxDistance", .int 30),
   ("includeChirality", .bool false),
   ("use2D", .bool true),
   ("countSimulation", .bool true),
   ("countBounds", .pynone),
   ("fpSize", .int 2048),
   ("atomInvariantsGenerator", .pynone)]

/-- Default arguments of the tag "rdkit" (fp.py lines 95-106). -/
def rdkitDefaults : List (String × PyVal) :=
  [("minPath", .int 1),
   ("maxPath", .int 7),
   ("useHs", .bool true),
   ("branchedPaths", .bool true),
   ("useBondOrder", .bool true),
   ("countSimulation", .bool false),
   ("countBounds", .pynone),
   ("fpSize", .int 2048),
   ("numBitsPerFeature", .int 2),
   ("atomInvariantsGenerator", .pynone)]

/-- Default arguments of the tag "pattern" (fp.py lines 107-112). -/
def patternDefaults : List (String × PyVal) :=
  [("fpSize", .int 2048),
   ("atomCounts", .list []),
   ("setOnlyBits", .pynone),
   ("tautomerFingerprints", .bool false)]

/-- Default arguments of the tag "layered" (fp.py lines 113-121). -/
def layeredDefaults : List (String × PyVal) :=
  [("fpSize", .int 2048),
   ("minPath", .int 1),
   ("maxPath", .int 7),
   ("atomCounts", .list []),
   ("setOnlyBits", .pynone),
   ("branchedPaths", .bool true),
   ("fromAtoms", .int 0)]

/-- Default arguments of the tag "secfp" (fp.py lines 122-131).  Note that
"secfp" has defaults but no entry in `_FP_FUNCS`. -/
def secfpDefaults : List (String × PyVal) :=
  [("n_permutations", .int 128),
   ("nBits", .int 2048),
   ("radius", .int 3),
   ("min_radius", .int 1),
   ("rings", .bool true),
   ("kekulize", .bool false),
   ("isomeric", .bool false),
   ("seed", .int 0)]

/-- Default arguments of the tag "erg" (fp.py line 132).  The float literal
0.3 is represented opaquely. -/
def ergDefaults : List (String × PyVal) :=
  [("atomTypes", .int 0),
   ("fuzzIncrement", .ext "0.3"),
   ("minPath", .int 1),
   ("maxPath", .int 15)]

/-- Default arguments of the tag "estate" (fp.py line 133). -/
def estateDefaults : List (String × PyVal) := []

/-- Default arguments of the tag "avalon-count" (fp.py lines 135-139). -/
def avalonCountDefaults : List (String × PyVal) :=
  [("nBits", .int 512),
   ("isQuery", .bool false),
   ("bitFlags", .ext "pyAvalonTools.avalonSimilarityBits")]

/-- Default arguments of the tag "ecfp-count" (fp.py lines 140-149). -/
def ecfpCountDefaults : List (String × PyVal) :=
  [("radius", .int 3),
   ("fpSize", .int 2048),
   ("includeChirality", .bool false),
   ("useBondTypes", .bool true),
   ("countSimulation", .bool false),
   ("countBounds", .pynone),
   ("atomInvariantsGenerator", .pynone),
   ("bondInvariantsGenerator", .pynone)]

/-- Default arguments of the tag "fcfp-count" (fp.py lines 150-159). -/
def fcfpCountDefaults : List (String × PyVal) :=
  [("radius", .int 2),
   ("fpSize", .int 2048),
   ("includeChirality", .bool false),
   ("useBondTypes", .bool true),
   ("countSimulation", .bool false),
   ("countBounds", .pynone),
   ("atomInvariantsGenerator", .ext "rdFingerprintGenerator.GetMorganFeatureAtomInvGen()"),
   ("bondInvariantsGenerator", .pynone)]

/-- Default arguments of the tag "topological-count" (fp.py lines 160-167). -/
def topologicalCountDefaults : List (String × PyVal) :=
  [("includeChirality", .bool false),
   ("torsionAtomCount", .int 4),
   ("countSimulation", .bool true),
   ("countBounds", .pynone),
   ("fpSize", .int 2048),
   ("atomInvariantsGenerator", .pynone)]

/-- Default arguments of the tag "atompair-count" (fp.py lines 168-177). -/
def atompairCountDefaults : List (String × PyVal) :=
  [("minDistance", .int 1),
   ("maxDistance", .int 30),
   ("includeChirality", .bool false),
   ("use2D", .bool true),
   ("countSimulation", .bool true),
   ("countBounds", .pynone),
   ("fpSize", .int 2048),
   ("atomInvariantsGenerator", .pynone)]

/-- Default arguments of the tag "rdkit-count" (fp.py lines 178-189). -/
def rdkitCountDefaults : List (String × PyVal) :=
  [("minPath", .int 1),
   ("maxPath", .int 7),
   ("useHs", .bool true),
   ("branchedPaths", .bool true),
   ("useBondOrder", .bool true),
   ("countSimulation", .bool false),
   ("countBounds", .pynone),
   ("fpSize", .int 2048),
   ("numBitsPerFeature", .int 1),
   ("atomInvariantsGenerator", .pynone)]

/-- Table `_FP_DEFAULT_ARGS` (fp.py lines 49-190): tag paired with its default
argument dict, in insertion order. -/
def FP_DEFAULT_ARGS : List (String × List (String × PyVal)) :=
  [("maccs", maccsDefaults),
   ("avalon", avalonDefaults),
   ("ecfp", ecfpDefaults),
   ("fcfp", fcfpDefaults),
   ("topological", topologicalDefaults),
   ("atompair", atompairDefaults),
   ("rdkit", rdkitDefaults),
   ("pattern", patternDefaults),
   ("layered", layeredDefaults),
   ("secfp", secfpDefaults),
   ("erg", ergDefaults),
   ("estate", estateDefaults),
   ("avalon-count", avalonCountDefaults),
   ("ecfp-count", ecfpCountDefaults),
   ("fcfp-count", fcfpCountDefaults),
   ("topological-count", topologicalCountDefaults),
   ("atompair-count", atompairCountDefaults),
   ("rdkit-count", rdkitCountDefaults)]

/-- The four sparse integer count vector classes imported from rdkit
(fp.py lines 18-22) are handled uniformly by both isinstance tuples of
fp.py, so they are modelled as one constructor carrying a variant tag. -/
inductive CountVariant : Type
  | uint
  | int
  | long
  | ulong
deriving DecidableEq, Repr

/-- The Python type name printed by an f-string for each count variant. -/
def CountVariant.pyTypeName : CountVariant → String
  | .uint => "<class \x27rdkit.DataStructs.cDataStructs.UIntSparseIntVect\x27>"
  | .int => "<class \x27rdkit.DataStructs.cDataStructs.IntSparseIntVect\x27>"
  | .long => "<class \x27rdkit.DataStructs.cDataStructs.LongSparseIntVect\x27>"
  | .ulong => "<class \x27rdkit.DataStructs.cDataStructs.ULongSparseIntVect\x27>"

/-- A fingerprint value, covering every run-time shape the module inspects:
a dense numpy integer array, a sparse bit set (declared bit length plus the
list of on bits), a dense explicit bit vector, a sparse integer count vector
(declared length plus the nonzero index/value pairs in dict order), or any
other Python object, carried as its printed type name. -/
inductive FP : Type
  | ndarray (xs : List Int)
  | sparseBitVect (numBits : Nat) (onBits : List Nat)
  | explicitBitVect (bits : List Bool)
  | countVect (variant : CountVariant) (len : Nat) (elems : List (Nat × Int))
  | other (typeName : String)
deriving DecidableEq, Repr

/-- The Python type name printed by an f-string for each fingerprint shape. -/
def FP.pyTypeName : FP → String
  | .ndarray _ => "<class \x27numpy.ndarray\x27>"
  | .sparseBitVect _ _ => "<class \x27rdkit.DataStructs.cDataStructs.SparseBitVect\x27>"
  | .explicitBitVect _ => "<class \x27rdkit.DataStructs.cDataStructs.ExplicitBitVect\x27>"
  | .countVect v _ _ => v.pyTypeName
  | .other ty => ty

/-- Assignment `tmp[on_bits] = 1` (fp.py line 212): set each listed index of a dense
zero array to 1. -/
def scatterOnes (n : Nat) (idxs : List Nat) : List Int :=
  idxs.foldl (fun acc i => acc.set i 1) (List.replicate n 0)

/-- Assignment `tmp[bit_idx] = values` (fp.py line 229): write each index/value pair of
a dense zero array. -/
def scatterVals (n : Nat) (elems : List (Nat × Int)) : List Int :=
  elems.foldl (fun acc p => acc.set p.1 p.2) (List.replicate n 0)

/-- Function `fp_to_array` (fp.py lines 193-238): convert a fingerprint to a dense
numpy integer array, dispatching on the concrete type.  Branches that raise
in Python return an `Except.error` carrying the message.  Two branches hit
numpy edge cases on empty sparse inputs:
the sparse bit set branch builds `np.array(fp.GetOnBits())`, which for an
empty sequence has dtype float64, and numpy fancy index assignment rejects
float index arrays even when empty; the count vector branch unpacks
`np.array(list(tmp.items())).T` into two rows, which for an empty dict is a
0-length array and the unpacking raises. -/
def fp_to_array : FP → Except String (List Int)
  | .ndarray xs => .ok xs
  | .sparseBitVect numBits onBits =>
      if onBits.isEmpty then
        .error "IndexError: arrays used as indices must be of integer (or boolean) type"
      else if onBits.all (fun i => i < numBits) then
        .ok (scatterOnes numBits onBits)
      else
        .error "IndexError: index is out of bounds"
  | .explicitBitVect bits =>
      -- np.frombuffer(fp.ToBitString().encode(), "u1") - ord("0"):
      -- each character of the bit string becomes its numeral value.
      .ok (bits.map (fun b => if b then (1 : Int) else 0))
  | .countVect _ n elems =>
      if elems.isEmpty then
        .error "ValueError: not enough values to unpack (expected 2, got 0)"
      else if elems.all (fun p => p.1 < n) then
        .ok (scatterVals n elems)
      else
        .error "IndexError: index is out of bounds"
  | .other ty =>
      .error ("The fingerprint of type \x27" ++ ty ++
        "\x27 is not supported. Please open a ticket at https://github.com/datamol-io/datamol/issues.")

/-- Clipping as `np.clip(x, a_min, a_max)` behaves on integers. -/
def clipInt (lo hi x : Int) : Int := max lo (min hi x)

/-- Scatter-add `np.add.at(folded, i, v)` (fp.py line 356) in the case where it runs:
unbuffered in-place addition, one accumulation per index/value pair in
order. -/
def addAt (folded : List Int) (pairs : List (Nat × Int)) : List Int :=
  pairs.foldl (fun acc p => acc.set p.1 (acc.getD p.1 0 + p.2)) folded

/-- Core of `fold_count_fp` (fp.py lines 347-360), operating on the sparse
dict `tmp` extracted by the dispatch.  `valuesFloat` records whether the
dict values are numpy float64 (the sparse bit set branch builds them with
`np.ones`, fp.py line 342) rather than Python ints.

numpy semantics of the translated lines:
* empty dict: `np.array(list(tmp.keys()))` has dtype float64 and
  `np.add.at` rejects a non-integer index array, raising IndexError;
* float64 values: `np.add.at` casts like in-place addition with the
  same_kind rule, and float64 does not cast to the int64 accumulator, so it
  raises a casting error;
* `dim = 0`: numpy integer remainder by zero yields 0 (with a warning,
  which does not raise), and index 0 is then out of bounds for the
  0-length accumulator `np.zeros(0)`;
* otherwise every reduced index is below `dim` and the scatter-add runs.
The source reduces the indices modulo `dim` twice (fp.py lines 348 and
352); the second reduction is the identity on the first. -/
def foldSparse (tmp : List (Nat × Int)) (valuesFloat : Bool) (dim : Nat)
    (binary : Bool) : Except String (List Int) :=
  if tmp.isEmpty then
    .error "IndexError: arrays used as indices must be of integer (or boolean) type"
  else if valuesFloat then
    .error "Cannot cast ufunc \x27add\x27 output from dtype(\x27float64\x27) to dtype(\x27int64\x27) with casting rule \x27same_kind\x27"
  else if dim = 0 then
    .error "IndexError: index 0 is out of bounds for axis 0 with size 0"
  else
    let pairs := tmp.map (fun p => (p.1 % dim, p.2))
    let folded := addAt (List.replicate dim 0) pairs
    .ok (if binary then folded.map (fun x => clipInt 0 1 x) else folded)

/-- Function `fold_count_fp` (fp.py lines 314-361): dispatch on the fingerprint type,
extract the sparse dict, then fold.  The sparse bit set branch builds
`dict(zip(on_bits, np.ones(len(on_bits))))`, so its values are numpy
float64 ones.  Any other type raises the wrong-type error naming the
concrete type. -/
def fold_count_fp (fp : FP) (dim : Nat) (binary : Bool) :
    Except String (List Int) :=
  match fp with
  | .countVect _ _ elems => foldSparse elems false dim binary
  | .sparseBitVect _ onBits =>
      foldSparse (onBits.map (fun b => (b, (1 : Int)))) true dim binary
  | fp => .error ("The fingerprint is of wrong type: " ++ fp.pyTypeName)

/-- A molecule input to `to_fp`: either text to be parsed or an
already-built structure object of abstract type `M`. -/
inductive MolInput (M : Type) : Type
  | text (s : String)
  | struct (m : M)

/-- The string interpolated for the input in the invalid-molecule message.
Structure inputs never reach that message, because they always resolve. -/
def MolInput.show {M : Type} : MolInput M → String
  | .text s => s
  | .struct _ => "<Mol object>"

/-- Lines 272-281 of fp.py: a textual input is parsed by the external parser,
a structure input is used as is. -/
def resolveMol {M : Type} (parse : String → Option M) : MolInput M → Option M
  | .text s => parse s
  | .struct m => some m

/-- Python truthiness of `not fold_size` (fp.py line 302): true when
`fold_size` is None or 0. -/
def foldFalsy : Option Nat → Bool
  | none => true
  | some w => w == 0

/-- Method `dict.setdefault` (fp.py line 285): insert the pair only when the key is
absent; Python dicts append new keys at the end. -/
def setdefault (d : List (String × PyVal)) (k : String) (v : PyVal) :
    List (String × PyVal) :=
  if (List.lookup k d).isSome then d else d ++ [(k, v)]

/-- Lines 283-285 of fp.py: iterate over the default dict in order and
`setdefault` each pair into the caller arguments. -/
def insertDefaults (fp_args defaults : List (String × PyVal)) :
    List (String × PyVal) :=
  defaults.foldl (fun acc kv => setdefault acc kv.1 kv.2) fp_args

/-- Function `to_fp` (fp.py lines 241-305).  The external parser (`dm.to_mol`) and
the native fingerprint computation are collaborators passed as functions;
`compute` stands for the whole of fp.py lines 287-295, which selects the
direct or generator strategy and calls into RDKit — in every branch the
native result is a function of the tag, the merged arguments and the
molecule.  The dispatch steps of the module itself are translated one by
one: the registry check with its error, the input resolution with its
error, the unguarded default lookup (a missing key would raise KeyError),
the argument merge, the optional fold, and the final conversion guarded by
the Python truthiness of `not fold_size and as_array`. -/
def to_fp {M : Type} (parse : String → Option M)
    (compute : String → List (String × PyVal) → M → FP)
    (mol : MolInput M) (as_array : Bool) (fp_type : String)
    (fold_size : Option Nat) (fp_args : List (String × PyVal)) :
    Except String FP :=
  if FP_FUNCS_keys.contains fp_type = false then
    .error ("The fingerprint \x27" ++ fp_type ++
      "\x27 is not available. Use `dm.list_supported_fingerprints()` to get a complete list of the available fingerprints.")
  else
    match resolveMol parse mol with
    | none =>
        .error ("It seems like the input molecule \x27" ++ mol.show ++
          "\x27 is invalid.")
    | some m =>
        match List.lookup fp_type FP_DEFAULT_ARGS with
        | none => .error ("KeyError: \x27" ++ fp_type ++ "\x27")
        | some defaults =>
            let args := insertDefaults fp_args defaults
            let fp := compute fp_type args m
            let folded : Except String FP :=
              match fold_size with
              | some w => (fold_count_fp fp w false).map FP.ndarray
              | none => .ok fp
            match folded with
            | .error e => .error e
            | .ok fp2 =>
                if foldFalsy fold_size && as_array then
                  (fp_to_array fp2).map FP.ndarray
                else
                  .ok fp2

/-- Function `list_supported_fingerprints` (fp.py lines 308-311). -/
def list_supported_fingerprints : List (String × String) := FP_FUNCS

/-- Whether an `Except` result is an error. -/
def isErr {α : Type} : Except String α → Bool
  | .error _ => true
  | .ok _ => false

/-- Whether a fold result is exactly the wrong-type dispatch error for the
given fingerprint. -/
def isWrongTypeErrFor (fp : FP) (r : Except String (List Int)) : Bool :=
  match r with
  | .error e => e == "The fingerprint is of wrong type: " ++ fp.pyTypeName
  | .ok _ => false

/-- The fingerprint shapes rejected by the fold dispatch: dense numpy
arrays, dense explicit bit vectors, and unrecognized objects. -/
def FP.isDenseOrUnrecognized : FP → Bool
  | .ndarray _ => true
  | .explicitBitVect _ => true
  | .other _ => true
  | .sparseBitVect _ _ => false
  | .countVect _ _ _ => false

/-- Clipping an integer to the range 0..1 yields 0 or 1. -/
lemma clipInt_zero_one (x : Int) :
    (clipInt 0 1 x == 0 || clipInt 0 1 x == 1) = true := by
  have h : clipInt 0 1 x = 0 ∨ clipInt 0 1 x = 1 := by
    unfold clipInt
    omega
  rcases h with h | h <;> simp [h]

/-- The binary fold is the clipped count fold, branch by branch of
`foldSparse`. -/
lemma foldSparse_binary_eq_clip (tmp : List (Nat × Int)) (valuesFloat : Bool)
    (dim : Nat) :
    foldSparse tmp valuesFloat dim true
      = (foldSparse tmp valuesFloat dim false).map
          (List.map (fun x => clipInt 0 1 x)) := by
  unfold foldSparse
  split_ifs <;> first | rfl | contradiction

/-- Claim C9: every tag of the algorithm registry `_FP_FUNCS` has an entry
in the default-parameter table `_FP_DEFAULT_ARGS`, so the unguarded lookup
`_FP_DEFAULT_ARGS[fp_type]` in `to_fp` succeeds for every registered tag. -/
theorem registry_defaults_total :
    FP_FUNCS_keys.all (fun t => (List.lookup t FP_DEFAULT_ARGS).isSome)
      = true := by
  decide

/-- Claim C6: `fp_to_array` returns an already-dense numeric array
unchanged, and is therefore idempotent on dense arrays. -/
theorem fp_to_array_dense_idempotent :
    ∀ xs : List Int,
      fp_to_array (FP.ndarray xs) = Except.ok xs ∧
      (fp_to_array (FP.ndarray xs)).bind (fun ys => fp_to_array (FP.ndarray ys))
        = fp_to_array (FP.ndarray xs) :=
  fun _ => ⟨rfl, rfl⟩

/-- Claim C10: on a sparse bit set with zero set bits and on a sparse count
vector with an empty nonzero-element map, `fp_to_array` raises instead of
returning the all-zero dense array of the declared length: the empty numpy
index array has float dtype and is rejected, and unpacking the transposed
empty item array fails. -/
theorem fp_to_array_empty_sparse_errors :
    ∀ (numBits : Nat) (variant : CountVariant) (len : Nat),
      isErr (fp_to_array (FP.sparseBitVect numBits [])) = true ∧
      isErr (fp_to_array (FP.countVect variant len [])) = true :=
  fun _ _ _ => ⟨rfl, rfl⟩

/-- Claim C5: `fold_count_fp` raises the wrong-type error exactly on the
dense and unrecognized shapes (never on the two sparse representations),
and that error names the offending concrete type. -/
theorem fold_count_fp_type_dispatch :
    (∀ (fp : FP) (dim : Nat) (binary : Bool),
        isWrongTypeErrFor fp (fold_count_fp fp dim binary)
          = FP.isDenseOrUnrecognized fp) ∧
    (∀ (xs : List Int) (dim : Nat) (binary : Bool),
        fold_count_fp (FP.ndarray xs) dim binary
          = Except.error
              "The fingerprint is of wrong type: <class \x27numpy.ndarray\x27>") ∧
    (∀ (bits : List Bool) (dim : Nat) (binary : Bool),
        fold_count_fp (FP.explicitBitVect bits) dim binary
          = Except.error
              "The fingerprint is of wrong type: <class \x27rdkit.DataStructs.cDataStructs.ExplicitBitVect\x27>") ∧
    (∀ (ty : String) (dim : Nat) (binary : Bool),
        fold_count_fp (FP.other ty) dim binary
          = Except.error ("The fingerprint is of wrong type: " ++ ty)) := by
  refine ⟨?_, fun _ _ _ => rfl, fun _ _ _ => rfl, fun _ _ _ => rfl⟩
  intro fp dim binary
  cases fp with
  | ndarray xs => rfl
  | explicitBitVect bits => rfl
  | other ty =>
      simp [fold_count_fp, isWrongTypeErrFor, FP.pyTypeName,
        FP.isDenseOrUnrecognized]
  | sparseBitVect numBits onBits =>
      simp only [fold_count_fp, foldSparse, FP.isDenseOrUnrecognized]
      split_ifs <;> rfl
  | countVect variant len elems =>
      cases variant <;>
        · simp only [fold_count_fp, foldSparse, FP.isDenseOrUnrecognized]
          split_ifs <;> rfl

/-- Claim C1 (code evaluated at the failing input): folding a sparse bit
set always raises, because the bit-set branch builds its count dict with
float64 ones and `np.add.at` cannot cast them into the int64 accumulator.
The second conjunct shows that the same data with integer ones would have
produced exactly the dense array the claim describes. -/
theorem fold_count_fp_bitset_crash :
    fold_count_fp (FP.sparseBitVect 8 [3]) 4 false
      = Except.error
          "Cannot cast ufunc \x27add\x27 output from dtype(\x27float64\x27) to dtype(\x27int64\x27) with casting rule \x27same_kind\x27" ∧
    foldSparse [(3, 1)] false 4 false = Except.ok [0, 0, 0, 1] :=
  ⟨rfl, rfl⟩

/-- Claim C3 counterexample: with `binary` set, folding a sparse bit set
raises the same casting error instead of returning an array of 0 and 1. -/
theorem fold_binary_bitset_counterexample :
    fold_count_fp (FP.sparseBitVect 8 [3]) 4 true
      = Except.error
          "Cannot cast ufunc \x27add\x27 output from dtype(\x27float64\x27) to dtype(\x27int64\x27) with casting rule \x27same_kind\x27" :=
  rfl

/-- Claim C3 (amended): the binary fold is the elementwise clip to 0..1 of
the count fold (errors agreeing), and whenever it returns an array the
array contains only 0 and 1 (clamping happens after accumulation). -/
theorem fold_binary_clip_relation (fp : FP) (dim : Nat) :
    fold_count_fp fp dim true
        = (fold_count_fp fp dim false).map (List.map (fun x => clipInt 0 1 x)) ∧
    (∀ out, fold_count_fp fp dim true = Except.ok out →
      out.all (fun x => x == 0 || x == 1) = true) := by
  have hclip : fold_count_fp fp dim true
      = (fold_count_fp fp dim false).map (List.map (fun x => clipInt 0 1 x)) := by
    cases fp with
    | countVect variant len elems => exact foldSparse_binary_eq_clip _ _ _
    | sparseBitVect numBits onBits => exact foldSparse_binary_eq_clip _ _ _
    | ndarray xs => rfl
    | explicitBitVect bits => rfl
    | other ty => rfl
  refine ⟨hclip, ?_⟩
  intro out hout
  rw [hclip] at hout
  cases hbase : fold_count_fp fp dim false with
  | error e =>
      rw [hbase] at hout
      exact absurd hout (by simp [Except.map])
  | ok base =>
      rw [hbase] at hout
      have hb : base.map (fun x => clipInt 0 1 x) = out := by
        simpa [Except.map] using hout
      subst hb
      rw [List.all_eq_true]
      intro x hx
      rw [List.mem_map] at hx
      obtain ⟨y, _, hy⟩ := hx
      rw [← hy]
      exact clipInt_zero_one y

/-- Claim C3 witness: the relation and the 0/1 property evaluated on a
concrete sparse count vector. -/
theorem fold_binary_clip_relation_witness :
    fold_count_fp (FP.countVect CountVariant.uint 16 [(1, 2), (5, 3)]) 4 true
        = (fold_count_fp (FP.countVect CountVariant.uint 16 [(1, 2), (5, 3)]) 4 false).map
            (List.map (fun x => clipInt 0 1 x)) ∧
    ([0, 1, 0, 0] : List Int).all (fun x => x == 0 || x == 1) = true :=
  ⟨(fold_binary_clip_relation (FP.countVect CountVariant.uint 16 [(1, 2), (5, 3)]) 4).1,
   (fold_binary_clip_relation (FP.countVect CountVariant.uint 16 [(1, 2), (5, 3)]) 4).2
     [0, 1, 0, 0] rfl⟩

/-- Entry `i` after a scatter-add: the old entry plus the sum of the values
whose index is `i`. -/
lemma addAt_getD (pairs : List (Nat × Int)) (folded : List Int) (i : Nat)
    (hall : ∀ p ∈ pairs, p.1 < folded.length) :
    (addAt folded pairs).getD i 0
      = folded.getD i 0
          + ((pairs.filter (fun p => p.1 == i)).map Prod.snd).sum := by
  induction pairs generalizing folded with
  | nil => simp [addAt]
  | cons q ps ih =>
      obtain ⟨j, v⟩ := q
      have hj : j < folded.length := hall (j, v) (List.mem_cons_self _ _)
      have hstep : addAt folded ((j, v) :: ps)
          = addAt (folded.set j (folded.getD j 0 + v)) ps := rfl
      have hall' : ∀ p ∈ ps, p.1 < (folded.set j (folded.getD j 0 + v)).length := by
        intro p hp
        rw [List.length_set]
        exact hall p (List.mem_cons_of_mem _ hp)
      rw [hstep, ih _ hall', List.filter_cons]
      by_cases hji : j = i
      · subst hji
        have hset : (folded.set j (folded.getD j 0 + v)).getD j 0
            = folded.getD j 0 + v := by
          rw [List.getD_eq_getElem?_getD, List.getElem?_set_self hj]
          simp
        simp only [hset]
        simp only [show ((j, v).1 == j) = true by simp]
        simp only [if_true, List.map_cons, List.sum_cons]
        omega
      · have hset : (folded.set j (folded.getD j 0 + v)).getD i 0
            = folded.getD i 0 := by
          rw [List.getD_eq_getElem?_getD, List.getElem?_set_ne hji,
            ← List.getD_eq_getElem?_getD]
        simp only [hset]
        simp only [show ((j, v).1 == i) = false by simpa using hji]
        simp

/-- On a sparse count vector with at least one nonzero element and a
positive dimension, the fold succeeds and entry `i` is the sum of the
values at the sparse indices congruent to `i` modulo `dim`.  This is the
behaviour claimed for `fold_count_fp`; it holds on the count-map path,
while the bit-set path always raises. -/
lemma fold_count_fp_count_entry (variant : CountVariant) (n : Nat)
    (elems : List (Nat × Int)) (dim : Nat) (i : Nat)
    (hne : elems.isEmpty = false) (hdim : 0 < dim) :
    ∃ arr,
      fold_count_fp (FP.countVect variant n elems) dim false = Except.ok arr ∧
      arr.getD i 0
        = ((elems.filter (fun p => p.1 % dim == i)).map Prod.snd).sum := by
  have hok : fold_count_fp (FP.countVect variant n elems) dim false
      = Except.ok
          (addAt (List.replicate dim 0)
            (elems.map (fun p => (p.1 % dim, p.2)))) := by
    have h1 : fold_count_fp (FP.countVect variant n elems) dim false
        = foldSparse elems false dim false := rfl
    rw [h1]
    unfold foldSparse
    rw [hne]
    rw [if_neg (by simp)]
    rw [if_neg (by simp)]
    rw [if_neg (by omega)]
    rfl
  refine ⟨_, hok, ?_⟩
  have hall : ∀ p ∈ elems.map (fun p => (p.1 % dim, p.2)),
      p.1 < (List.replicate dim (0 : Int)).length := by
    intro p hp
    rw [List.mem_map] at hp
    obtain ⟨q, _, hq⟩ := hp
    rw [← hq, List.length_replicate]
    exact Nat.mod_lt _ hdim
  rw [addAt_getD _ _ _ hall]
  have hrep : (List.replicate dim (0 : Int)).getD i 0 = 0 := by
    rw [List.getD_eq_getElem?_getD, List.getElem?_replicate]
    split <;> rfl
  rw [hrep, zero_add]
  rw [List.filter_map]
  rw [List.map_map]
  rfl

/-- Unfolding of the argument merge fold on a cons cell. -/
lemma insertDefaults_cons (fp_args : List (String × PyVal)) (k' : String)
    (v' : PyVal) (ds : List (String × PyVal)) :
    insertDefaults fp_args ((k', v') :: ds)
      = insertDefaults (setdefault fp_args k' v') ds := rfl

/-- Association-list lookup distributes over append. -/
lemma lookup_append (l₁ l₂ : List (String × PyVal)) (k : String) :
    List.lookup k (l₁ ++ l₂)
      = (List.lookup k l₁).orElse (fun _ => List.lookup k l₂) := by
  induction l₁ with
  | nil => simp [List.lookup, Option.orElse]
  | cons kv rest ih =>
      obtain ⟨k', v'⟩ := kv
      by_cases h : (k == k') = true
      · simp [List.lookup, h, Option.orElse]
      · simp only [List.cons_append, List.lookup, h]
        exact ih

/-- The merged argument dict looks up to the caller value when present and
to the default value otherwise. -/
lemma lookup_insertDefaults (defaults fp_args : List (String × PyVal))
    (k : String) :
    List.lookup k (insertDefaults fp_args defaults)
      = (List.lookup k fp_args).orElse (fun _ => List.lookup k defaults) := by
  induction defaults generalizing fp_args with
  | nil =>
      simp only [insertDefaults, List.foldl_nil]
      cases List.lookup k fp_args <;> simp [List.lookup, Option.orElse]
  | cons kv ds ih =>
      obtain ⟨k', v'⟩ := kv
      rw [insertDefaults_cons, ih]
      unfold setdefault
      by_cases hc : (List.lookup k' fp_args).isSome
      · rw [if_pos hc]
        by_cases hk : (k == k') = true
        · have hkk : k = k' := eq_of_beq hk
          subst hkk
          obtain ⟨v, hv⟩ := Option.isSome_iff_exists.mp hc
          simp [hv, List.lookup, Option.orElse]
        · simp only [List.lookup, hk]
      · rw [if_neg hc]
        rw [lookup_append]
        by_cases hk : (k == k') = true
        · have hkk : k = k' := eq_of_beq hk
          subst hkk
          have hn : List.lookup k fp_args = none := by
            cases hl : List.lookup k fp_args
            · rfl
            · exact absurd (by simp [hl]) hc
          simp [hn, List.lookup, Option.orElse]
        · cases List.lookup k fp_args <;>
            simp [List.lookup, hk, Option.orElse]

/-- Every registered tag has a default entry (helper used by the
dispatcher theorems). -/
lemma defaults_present (t : String)
    (h : FP_FUNCS_keys.contains t = true) :
    (List.lookup t FP_DEFAULT_ARGS).isSome = true := by
  have hall : FP_FUNCS_keys.all
      (fun s => (List.lookup s FP_DEFAULT_ARGS).isSome) = true := by decide
  have hm : t ∈ FP_FUNCS_keys := by simpa using h
  exact List.all_eq_true.mp hall t hm

/-- Claim C7: the argument merge of `to_fp` is a shallow per-key merge in
which caller-supplied values win: a key present in the caller arguments
keeps the caller value, and a key absent from them looks up to the
registry default. -/
theorem to_fp_arg_merge (fp_type : String)
    (defaults fp_args : List (String × PyVal)) (k : String)
    (_hdef : List.lookup fp_type FP_DEFAULT_ARGS = some defaults) :
    ((List.lookup k fp_args).isSome = true →
        List.lookup k (insertDefaults fp_args defaults)
          = List.lookup k fp_args) ∧
    (List.lookup k fp_args = none →
        List.lookup k (insertDefaults fp_args defaults)
          = List.lookup k defaults) := by
  constructor
  · intro hs
    rw [lookup_insertDefaults]
    obtain ⟨v, hv⟩ := Option.isSome_iff_exists.mp hs
    simp [hv, Option.orElse]
  · intro hn
    rw [lookup_insertDefaults, hn]
    simp [Option.orElse]

/-- Claim C7 witness: overriding "radius" for "ecfp" keeps the caller
value, while the untouched "fpSize" key falls back to the default. -/
theorem to_fp_arg_merge_witness :
    (List.lookup "radius" (insertDefaults [("radius", PyVal.int 5)] ecfpDefaults)
        = List.lookup "radius" [("radius", PyVal.int 5)]) ∧
    (List.lookup "fpSize" (insertDefaults [("radius", PyVal.int 5)] ecfpDefaults)
        = List.lookup "fpSize" ecfpDefaults) :=
  ⟨(to_fp_arg_merge "ecfp" ecfpDefaults [("radius", PyVal.int 5)] "radius" rfl).1 rfl,
   (to_fp_arg_merge "ecfp" ecfpDefaults [("radius", PyVal.int 5)] "fpSize" rfl).2 rfl⟩

/-- Claim C4: an unknown fingerprint tag makes `to_fp` fail with the
invalid-configuration message naming the tag and pointing at
`list_supported_fingerprints`, independently of the parser and of the
native computation (neither collaborator occurs in the result). -/
theorem to_fp_unknown_tag {M : Type} (parse : String → Option M)
    (compute : String → List (String × PyVal) → M → FP)
    (mol : MolInput M) (as_array : Bool) (fp_type : String)
    (fold_size : Option Nat) (fp_args : List (String × PyVal))
    (h : FP_FUNCS_keys.contains fp_type = false) :
    to_fp parse compute mol as_array fp_type fold_size fp_args
      = Except.error ("The fingerprint \x27" ++ fp_type ++
          "\x27 is not available. Use `dm.list_supported_fingerprints()` to get a complete list of the available fingerprints.") := by
  unfold to_fp
  rw [h]
  rfl

/-- Claim C4 witness: the unknown tag "not-a-real-fp" fails with the
invalid-configuration message even though parser and computation are
available. -/
theorem to_fp_unknown_tag_witness :
    FP_FUNCS_keys.contains "not-a-real-fp" = false ∧
    to_fp (M := Unit) (fun _ => some ()) (fun _ _ _ => FP.ndarray [])
        (MolInput.struct ()) true "not-a-real-fp" none []
      = Except.error ("The fingerprint \x27" ++ "not-a-real-fp" ++
          "\x27 is not available. Use `dm.list_supported_fingerprints()` to get a complete list of the available fingerprints.") :=
  ⟨rfl, to_fp_unknown_tag _ _ _ _ _ _ _ rfl⟩

/-- Claim C8: a textual input that the external parser fails to resolve
makes `to_fp` fail with the invalid-input message naming the input. -/
theorem to_fp_unparseable_text {M : Type} (parse : String → Option M)
    (compute : String → List (String × PyVal) → M → FP)
    (s : String) (as_array : Bool) (fp_type : String)
    (fold_size : Option Nat) (fp_args : List (String × PyVal))
    (hreg : FP_FUNCS_keys.contains fp_type = true)
    (hparse : parse s = none) :
    to_fp parse compute (MolInput.text s) as_array fp_type fold_size fp_args
      = Except.error ("It seems like the input molecule \x27" ++ s ++
          "\x27 is invalid.") := by
  unfold to_fp
  rw [hreg]
  simp only [resolveMol]
  rw [hparse]
  rfl

/-- Claim C8 witness: the empty notation string with a parser that returns
no structure fails with the invalid-input message. -/
theorem to_fp_unparseable_text_witness :
    FP_FUNCS_keys.contains "ecfp" = true ∧
    to_fp (M := Unit) (fun _ => none) (fun _ _ _ => FP.ndarray [])
        (MolInput.text "") true "ecfp" none []
      = Except.error ("It seems like the input molecule \x27" ++ "" ++
          "\x27 is invalid.") :=
  ⟨rfl, to_fp_unparseable_text _ _ _ _ _ _ _ rfl rfl⟩

/-- Claim C2: for a registered tag and a resolvable molecule, `to_fp` with
a fold width returns exactly the folded result of the native fingerprint
(regardless of the array-output flag; a fold width of 0 is falsy in
Python, but the extra `fp_to_array` pass is the identity on the folded
dense array); without a fold width it returns the normalized array when
the flag is set and the native representation unchanged otherwise. -/
theorem to_fp_postprocessing {M : Type} (parse : String → Option M)
    (compute : String → List (String × PyVal) → M → FP)
    (mol : MolInput M) (as_array : Bool) (fp_type : String)
    (fold_size : Option Nat) (fp_args : List (String × PyVal)) (m : M)
    (hreg : FP_FUNCS_keys.contains fp_type = true)
    (hres : resolveMol parse mol = some m) :
    (∀ w, fold_size = some w →
      to_fp parse compute mol as_array fp_type fold_size fp_args
        = (fold_count_fp
            (compute fp_type
              (insertDefaults fp_args
                ((List.lookup fp_type FP_DEFAULT_ARGS).getD [])) m)
            w false).map FP.ndarray) ∧
    (fold_size = none → as_array = true →
      to_fp parse compute mol as_array fp_type fold_size fp_args
        = (fp_to_array
            (compute fp_type
              (insertDefaults fp_args
                ((List.lookup fp_type FP_DEFAULT_ARGS).getD [])) m)).map
            FP.ndarray) ∧
    (fold_size = none → as_array = false →
      to_fp parse compute mol as_array fp_type fold_size fp_args
        = Except.ok
            (compute fp_type
              (insertDefaults fp_args
                ((List.lookup fp_type FP_DEFAULT_ARGS).getD [])) m)) := by
  obtain ⟨d, hd⟩ := Option.isSome_iff_exists.mp (defaults_present fp_type hreg)
  refine ⟨?_, ?_, ?_⟩
  · rintro w rfl
    unfold to_fp
    rw [hreg, hres, hd]
    simp only [Option.getD_some]
    cases hfc : fold_count_fp (compute fp_type (insertDefaults fp_args d) m)
        w false with
    | error e => simp [hfc, Except.map]
    | ok arr =>
        simp only [hfc, Except.map, foldFalsy]
        by_cases hw : ((w == 0) && as_array) = true
        · simp only [hw, if_true]
          rfl
        · simp only [hw]
          simp
  · rintro rfl ha
    subst ha
    unfold to_fp
    rw [hreg, hres, hd]
    simp only [Option.getD_some, foldFalsy]
    simp [Except.map]
  · rintro rfl ha
    subst ha
    unfold to_fp
    rw [hreg, hres, hd]
    simp only [Option.getD_some, foldFalsy]
    simp [Except.map]

/-- Claim C2 witness: with a fold width, `to_fp` on a concrete sparse count
vector equals the folded array. -/
theorem to_fp_postprocessing_witness :
    to_fp (M := Unit) (fun _ => some ())
        (fun _ _ _ => FP.countVect CountVariant.uint 16 [(1, 2), (5, 3)])
        (MolInput.struct ()) true "ecfp" (some 4) []
      = (fold_count_fp (FP.countVect CountVariant.uint 16 [(1, 2), (5, 3)])
          4 false).map FP.ndarray :=
  (to_fp_postprocessing (M := Unit) (fun _ => some ())
      (fun _ _ _ => FP.countVect CountVariant.uint 16 [(1, 2), (5, 3)])
      (MolInput.struct ()) true "ecfp" (some 4) [] () rfl rfl).1 4 rfl

end Datamol
